import Mathlib

/-!
Shallow embedding of the user controller of gladys-gateway
(src/gladys-gateway-server/core/api/user/user.controller.js) and of the
frontend browser-compatibility check (src/gladys-gateway-front/src/api/Auth.js).

The controller receives its collaborators (userModel, mailService,
socketModel) as parameters; they are modelled as records of functions. Each
handler returns the trace of collaborator calls it makes, in program order,
together with its outcome: a resolved HTTP response, or the error of a
rejected awaited promise (which express turns into an error response, never
into the handler's own success body).
-/

namespace GladysGateway

/-- Error of a rejected promise, abstracted to its message. -/
abbrev Err := String

/-- JSON-like values: the dynamic data the controller passes around. -/
inductive Json where
  | null
  | bool (b : Bool)
  | num (n : Int)
  | str (s : String)
  | arr (elems : List Json)
  | obj (fields : List (String × Json))

/-- Property access `o.k` in JS: the field when present, undefined (modelled
as null) otherwise. -/
def Json.get (j : Json) (k : String) : Json :=
  match j with
  | .obj fields =>
    match fields.find? (fun p => p.fst == k) with
    | some p => p.snd
    | none => .null
  | _ => .null

/-- The string content of a JSON value, when it is a string. -/
def Json.asString : Json → Option String
  | .str s => some s
  | _ => none

/-- Characters the JS builtin encodeURI leaves unescaped: ASCII letters,
digits, uriMark, uriReserved and the hash sign (code point 39 is the
apostrophe, part of uriMark). -/
def isUriUnescapedChar (c : Char) : Bool :=
  c.isAlpha || c.isDigit ||
  ['-', '_', '.', '!', '~', '*', '(', ')', ';', '/', '?', ':', '@', '&', '=', '+', '$', ',', '#'].contains c ||
  c.toNat == 39

/-- UTF-8 bytes of one code point. -/
def utf8Bytes (c : Char) : List Nat :=
  let n := c.toNat
  if n < 128 then [n]
  else if n < 2048 then [192 + n / 64, 128 + n % 64]
  else if n < 65536 then [224 + n / 4096, 128 + n / 64 % 64, 128 + n % 64]
  else [240 + n / 262144, 128 + n / 4096 % 64, 128 + n / 64 % 64, 128 + n % 64]

/-- Upper-case hexadecimal digit for a value below 16. -/
def hexDigit (n : Nat) : Char :=
  if n < 10 then Char.ofNat (48 + n) else Char.ofNat (55 + n)

/-- Percent-encoding of one byte. -/
def percentByte (b : Nat) : String :=
  String.mk ['%', hexDigit (b / 16), hexDigit (b % 16)]

/-- One character as encodeURI renders it. -/
def encodeURIChar (c : Char) : String :=
  if isUriUnescapedChar c then String.singleton c
  else String.join ((utf8Bytes c).map percentByte)

/-- Rendering of a character list by encodeURI. -/
def encodeURIList : List Char → String
  | [] => ""
  | c :: cs => encodeURIChar c ++ encodeURIList cs

/-- The encodeURI builtin of JS. -/
def encodeURI (s : String) : String := encodeURIList s.data

/-- The user record the model returns, restricted to the fields the
controller and the claims touch. -/
structure User where
  id : String
  email : String
  email_confirmed : Bool
  email_confirmation_token : String
  account_id : String
  srp_salt : String
  srp_verifier : String
  rsa_encrypted_private_key : String
  ecdsa_encrypted_private_key : String
deriving DecidableEq

/-- Result of userModel.loginTwoFactor: the token triple of the login-finalize
step. -/
structure Tokens where
  access_token : String
  refresh_token : String
  device_id : String
deriving DecidableEq

/-- The process environment variables the controller reads. -/
structure Env where
  GLADYS_GATEWAY_FRONTEND_URL : String
  GLADYS_PLUS_FRONTEND_URL : String
deriving DecidableEq

/-- The parts of an express request the modelled handlers read. -/
structure Request where
  body : Json
  user : User
  userAgent : Option String

/-- An HTTP response, res.status(s).json(b); res.json alone is status 200. -/
structure Response where
  status : Nat
  body : Json

/-- One call to a collaborator, recorded in program order. -/
inductive Effect where
  | modelSignup (body : Json)
  | modelUpdateUser (authUser : User) (body : Json)
  | modelLoginGetSalt (body : Json)
  | modelLoginTwoFactor (user : User) (code : Json) (deviceName : Json) (userAgent : Option String)
  | modelForgotPassword (email : Json)
  | modelResetPassword (token : Json) (body : Json)
  | mailSend (user : User) (template : String) (urlVars : List (String × String))
  | askInstanceToClearKeyCache (account_id : String)

/-- Whether an effect is a call to the mail collaborator. -/
def Effect.isMailSend : Effect → Bool
  | .mailSend _ _ _ => true
  | _ => false

/-- Behaviour of the userModel collaborator on the calls the modelled
handlers make. -/
structure UserModel where
  signup : Json → Except Err User
  updateUser : User → Json → Except Err User
  loginGetSalt : Json → Except Err Json
  loginTwoFactor : User → Json → Json → Option String → Except Err Tokens
  forgotPassword : Json → Except Err Json
  resetPassword : Json → Json → Except Err User

/-- Behaviour of the socketModel collaborator. -/
structure SocketModel where
  askInstanceToClearKeyCache : String → Except Err Unit

/-- Outcome of the floating promise mailService.send returns; the controller
never awaits it. -/
structure MailService where
  sendOutcome : Except Err Unit

/-- Body of the forgot-password and reset-password success responses. -/
def successTrue : Json := .obj [("success", .bool true)]

/-- Message of the signup success response. -/
def signupMessage : String := "User created with success. You need now to confirm your email."

/-- Body of the signup success response. -/
def signupSuccessBody : Json :=
  .obj [("status", .num 201), ("message", .str signupMessage)]

/-- Serialization res.json applies to a user record. -/
def userToJson (u : User) : Json :=
  .obj [("id", .str u.id), ("email", .str u.email),
        ("email_confirmed", .bool u.email_confirmed),
        ("email_confirmation_token", .str u.email_confirmation_token),
        ("account_id", .str u.account_id),
        ("srp_salt", .str u.srp_salt), ("srp_verifier", .str u.srp_verifier),
        ("rsa_encrypted_private_key", .str u.rsa_encrypted_private_key),
        ("ecdsa_encrypted_private_key", .str u.ecdsa_encrypted_private_key)]

/-- Serialization res.json applies to the token triple. -/
def tokensToJson (t : Tokens) : Json :=
  .obj [("access_token", .str t.access_token),
        ("refresh_token", .str t.refresh_token),
        ("device_id", .str t.device_id)]

namespace UserController

/-- URL variables of the signup confirmation mail: two template literals, each
applying encodeURI to the confirmation token. -/
def signupConfirmationVariables (env : Env) (user : User) : List (String × String) :=
  [("confirmationUrl",
    env.GLADYS_GATEWAY_FRONTEND_URL ++ "/confirm-email/" ++ encodeURI user.email_confirmation_token),
   ("confirmationUrlGladys4",
    env.GLADYS_PLUS_FRONTEND_URL ++ "/confirm-email/" ++ encodeURI user.email_confirmation_token)]

/-- POST /users/signup: awaits userModel.signup, fires the confirmation mail
without awaiting it, responds 201 with a fixed body. -/
def signup (env : Env) (userModel : UserModel) (mailService : MailService) (req : Request) :
    List Effect × Except Err Response :=
  match userModel.signup req.body with
  | .error e => ([.modelSignup req.body], .error e)
  | .ok user =>
    ([.modelSignup req.body,
      .mailSend user "confirmation" (signupConfirmationVariables env user)],
     .ok ⟨201, signupSuccessBody⟩)

/-- URL variables of the updateUser confirmation mail: two template literals
interpolating the confirmation token directly (no encodeURI here). -/
def updateConfirmationVariables (env : Env) (user : User) : List (String × String) :=
  [("confirmationUrl",
    env.GLADYS_GATEWAY_FRONTEND_URL ++ "/confirm-email/" ++ user.email_confirmation_token),
   ("confirmationUrlGladys4",
    env.GLADYS_PLUS_FRONTEND_URL ++ "/confirm-email/" ++ user.email_confirmation_token)]

/-- PATCH /users/me: awaits userModel.updateUser, fires the confirmation mail
(not awaited) only when email_confirmed is false, responds with the updated
user. -/
def updateUser (env : Env) (userModel : UserModel) (mailService : MailService) (req : Request) :
    List Effect × Except Err Response :=
  match userModel.updateUser req.user req.body with
  | .error e => ([.modelUpdateUser req.user req.body], .error e)
  | .ok user =>
    if user.email_confirmed = false then
      ([.modelUpdateUser req.user req.body,
        .mailSend user "confirmation" (updateConfirmationVariables env user)],
       .ok ⟨200, userToJson user⟩)
    else
      ([.modelUpdateUser req.user req.body], .ok ⟨200, userToJson user⟩)

/-- POST /users/login-salt: awaits userModel.loginGetSalt and forwards its
value verbatim as the response body. -/
def loginGetSalt (userModel : UserModel) (req : Request) :
    List Effect × Except Err Response :=
  match userModel.loginGetSalt req.body with
  | .error e => ([.modelLoginGetSalt req.body], .error e)
  | .ok user => ([.modelLoginGetSalt req.body], .ok ⟨200, user⟩)

/-- POST /users/login-two-factor: awaits userModel.loginTwoFactor on the
authenticated user, the body's two_factor_code and device_name and the
user-agent header, and responds with the returned token triple. -/
def loginTwoFactor (userModel : UserModel) (req : Request) :
    List Effect × Except Err Response :=
  match userModel.loginTwoFactor req.user (req.body.get "two_factor_code")
      (req.body.get "device_name") req.userAgent with
  | .error e =>
    ([.modelLoginTwoFactor req.user (req.body.get "two_factor_code")
        (req.body.get "device_name") req.userAgent], .error e)
  | .ok tokens =>
    ([.modelLoginTwoFactor req.user (req.body.get "two_factor_code")
        (req.body.get "device_name") req.userAgent],
     .ok ⟨200, tokensToJson tokens⟩)

/-- POST /users/forgot-password: awaits userModel.forgotPassword on the body's
email and responds with the fixed success body, dropping the model's value. -/
def forgotPassword (userModel : UserModel) (req : Request) :
    List Effect × Except Err Response :=
  match userModel.forgotPassword (req.body.get "email") with
  | .error e => ([.modelForgotPassword (req.body.get "email")], .error e)
  | .ok _ => ([.modelForgotPassword (req.body.get "email")], .ok ⟨200, successTrue⟩)

/-- POST /users/reset-password: awaits userModel.resetPassword, then awaits
socketModel.askInstanceToClearKeyCache on the returned user's account_id,
then responds with the fixed success body. -/
def resetPassword (userModel : UserModel) (socketModel : SocketModel) (req : Request) :
    List Effect × Except Err Response :=
  match userModel.resetPassword (req.body.get "token") req.body with
  | .error e => ([.modelResetPassword (req.body.get "token") req.body], .error e)
  | .ok newUser =>
    match socketModel.askInstanceToClearKeyCache newUser.account_id with
    | .error e =>
      ([.modelResetPassword (req.body.get "token") req.body,
        .askInstanceToClearKeyCache newUser.account_id], .error e)
    | .ok _ =>
      ([.modelResetPassword (req.body.get "token") req.body,
        .askInstanceToClearKeyCache newUser.account_id],
       .ok ⟨200, successTrue⟩)

end UserController

/-- Modelled from the spec: userModel.loginGetSalt is not under src (only its
caller, the controller, is). Per 4.2 it looks up the user's srp_salt by
email; per 9 the source returns nothing/differently for an unknown email,
modelled here as a lookup failure (a rejected promise). -/
def loginGetSalt_model (db : List User) (body : Json) : Except Err Json :=
  match db.find? (fun u => (body.get "email").asString == some u.email) with
  | some u => .ok (.obj [("srp_salt", .str u.srp_salt)])
  | none => .error "NotFound"

namespace Auth

/-- The subtle property of window.crypto: present or absent. -/
structure CryptoObj where
  subtle : Option Unit
deriving DecidableEq

/-- The parts of the browser window object the compatibility check reads. -/
structure Window where
  crypto : Option CryptoObj
  indexedDB : Option Unit
deriving DecidableEq

/-- Access to window.crypto.subtle, guarded by the presence of window.crypto
(the source only evaluates it after the truthiness test on window.crypto). -/
def cryptoSubtle (w : Window) : Option Unit :=
  match w.crypto with
  | some c => c.subtle
  | none => none

/-- The frontend testBrowserCompatibility function of Auth.js: starts from
true, demotes to false when window.crypto or window.crypto.subtle is absent,
and again when window.indexedDB is absent. -/
def testBrowserCompatibility (w : Window) : Bool :=
  let browserCompatible := true
  let browserCompatible :=
    if !w.crypto.isSome || !(cryptoSubtle w).isSome then false else browserCompatible
  let browserCompatible :=
    if !w.indexedDB.isSome then false else browserCompatible
  browserCompatible

end Auth

/-- Sample user record for concrete evaluations. -/
def sampleUser : User :=
  { id := "14baf452-302e-442c-aa55-d00558c3d9fe"
    email := "tony.stark@gladysassistant.com"
    email_confirmed := false
    email_confirmation_token := "token123"
    account_id := "b82ef923-d849-4b98-9dee-0a6e0005903d"
    srp_salt := "e0812f8c57be0878"
    srp_verifier := "verifier-blob"
    rsa_encrypted_private_key := "rsa-blob"
    ecdsa_encrypted_private_key := "ecdsa-blob" }

/-- Sample token triple for concrete evaluations. -/
def sampleTokens : Tokens :=
  { access_token := "access-token-xxxx"
    refresh_token := "refresh-token-xxxx"
    device_id := "device-1" }

/-- Model behaviour in which every call resolves. -/
def modelOk : UserModel :=
  { signup := fun _ => .ok sampleUser
    updateUser := fun _ _ => .ok sampleUser
    loginGetSalt := fun _ => .ok (.obj [("srp_salt", .str sampleUser.srp_salt)])
    loginTwoFactor := fun _ _ _ _ => .ok sampleTokens
    forgotPassword := fun _ => .ok (.bool true)
    resetPassword := fun _ _ => .ok sampleUser }

/-- Socket collaborator whose broadcast resolves. -/
def socketOk : SocketModel := ⟨fun _ => .ok ()⟩

/-- Socket collaborator whose broadcast rejects. -/
def socketFail : SocketModel := ⟨fun _ => .error "broadcast failed"⟩

/-- Mail collaborator whose floating promise resolves. -/
def mailOk : MailService := ⟨.ok ()⟩

/-- Mail collaborator whose floating promise rejects. -/
def mailFail : MailService := ⟨.error "mail failed"⟩

/-- Sample environment configuration. -/
def sampleEnv : Env :=
  ⟨"https://gateway.gladysassistant.com", "https://plus.gladysassistant.com"⟩

/-- Sample request for concrete evaluations. -/
def sampleRequest : Request :=
  { body := .obj [("email", .str "tony.stark@gladysassistant.com"),
                  ("token", .str "reset-token-1"),
                  ("two_factor_code", .str "123456"),
                  ("device_name", .str "laptop")]
    user := sampleUser
    userAgent := some "Mozilla/5.0" }

/-- C3: for every email input on which userModel.forgotPassword resolves, the
forgotPassword endpoint responds with exactly the body success true, whatever
value the model resolved with: the response carries no information derived
from the model's return value, so it is identical whether or not the email
matched a user. -/
theorem forgotPassword_uniform_success (m : UserModel) (req : Request) (v : Json)
    (h : m.forgotPassword (req.body.get "email") = .ok v) :
    (UserController.forgotPassword m req).2 = .ok ⟨200, successTrue⟩ := by
  simp [UserController.forgotPassword, h]

/-- Witness for C3 at a concrete model and request. -/
theorem forgotPassword_uniform_success_witness :
    (UserController.forgotPassword modelOk sampleRequest).2 = .ok ⟨200, successTrue⟩ :=
  forgotPassword_uniform_success modelOk sampleRequest (.bool true) rfl

/-- C9: any success response of the resetPassword handler has the fixed body
success true, whatever user record the model returned: no field of the
rotated user appears in the response. -/
theorem resetPassword_success_body_constant (m : UserModel) (s : SocketModel)
    (req : Request) (r : Response)
    (h : (UserController.resetPassword m s req).2 = .ok r) :
    r = ⟨200, successTrue⟩ := by
  unfold UserController.resetPassword at h
  cases hm : m.resetPassword (req.body.get "token") req.body with
  | error e => rw [hm] at h; simp at h
  | ok u =>
    rw [hm] at h
    cases hs : s.askInstanceToClearKeyCache u.account_id with
    | error e => simp [hs] at h
    | ok v => simp [hs] at h; exact h.symm

/-- Witness for C9 at a concrete model and request. -/
theorem resetPassword_success_body_constant_witness :
    (⟨200, successTrue⟩ : Response) = ⟨200, successTrue⟩ :=
  resetPassword_success_body_constant modelOk socketOk sampleRequest ⟨200, successTrue⟩ rfl

/-- C1 counterexample: with a credential rotation that succeeds and a
cache-invalidation broadcast that rejects, the resetPassword handler rejects
with the broadcast's error and does not produce the success body, so a
broadcast failure does surface and does fail the request. -/
theorem resetPassword_broadcast_failure_counterexample :
    (UserController.resetPassword modelOk socketFail sampleRequest).2 = .error "broadcast failed" ∧
    (UserController.resetPassword modelOk socketFail sampleRequest).2 ≠
      .ok ⟨200, successTrue⟩ := by
  constructor
  · rfl
  · intro h
    exact Except.noConfusion h

/-- C1 amended: the handler awaits the broadcast, so when the credential
rotation succeeds it responds success true exactly when the broadcast also
resolves, and a broadcast rejection is propagated as the request's error
(the rotation itself is not rolled back: it has already resolved). -/
theorem resetPassword_success_iff_broadcast_ok (m : UserModel) (s : SocketModel)
    (req : Request) (u : User)
    (h : m.resetPassword (req.body.get "token") req.body = .ok u) :
    ((UserController.resetPassword m s req).2 = .ok ⟨200, successTrue⟩ ↔
      s.askInstanceToClearKeyCache u.account_id = .ok ()) ∧
    ∀ e, s.askInstanceToClearKeyCache u.account_id = .error e →
      (UserController.resetPassword m s req).2 = .error e := by
  cases hs : s.askInstanceToClearKeyCache u.account_id with
  | error e =>
    refine ⟨⟨fun hok => ?_, fun hok => Except.noConfusion hok⟩, fun e' he' => ?_⟩
    · simp [UserController.resetPassword, h, hs] at hok
    · injection he' with h1
      subst h1
      simp [UserController.resetPassword, h, hs]
  | ok v =>
    refine ⟨⟨fun _ => rfl, fun _ => ?_⟩, fun e' he' => Except.noConfusion he'⟩
    simp [UserController.resetPassword, h, hs]

/-- Witness for C1's amended theorem at a concrete model where both the
rotation and the broadcast resolve. -/
theorem resetPassword_success_iff_broadcast_ok_witness :
    (((UserController.resetPassword modelOk socketOk sampleRequest).2 =
        .ok ⟨200, successTrue⟩ ↔
      socketOk.askInstanceToClearKeyCache sampleUser.account_id = .ok ()) ∧
    ∀ e, socketOk.askInstanceToClearKeyCache sampleUser.account_id = .error e →
      (UserController.resetPassword modelOk socketOk sampleRequest).2 = .error e) :=
  resetPassword_success_iff_broadcast_ok modelOk socketOk sampleRequest sampleUser rfl

/-- C2: whenever the resetPassword handler calls the cache-invalidation
broadcast, the credential rotation has already resolved successfully, the
broadcast's argument is the account_id of the user the rotation returned,
and the trace is exactly the rotation call followed by the broadcast call. -/
theorem resetPassword_broadcast_after_rotation (m : UserModel) (s : SocketModel)
    (req : Request) (a : String)
    (h : Effect.askInstanceToClearKeyCache a ∈ (UserController.resetPassword m s req).1) :
    ∃ u, m.resetPassword (req.body.get "token") req.body = .ok u ∧ a = u.account_id ∧
      (UserController.resetPassword m s req).1 =
        [Effect.modelResetPassword (req.body.get "token") req.body,
         Effect.askInstanceToClearKeyCache u.account_id] := by
  cases hm : m.resetPassword (req.body.get "token") req.body with
  | error e =>
    simp [UserController.resetPassword, hm] at h
  | ok u =>
    refine ⟨u, rfl, ?_, ?_⟩
    · cases hs : s.askInstanceToClearKeyCache u.account_id <;>
        simpa [UserController.resetPassword, hm, hs] using h
    · cases hs : s.askInstanceToClearKeyCache u.account_id <;>
        simp [UserController.resetPassword, hm, hs]

/-- Witness for C2 at a concrete model and request. -/
theorem resetPassword_broadcast_after_rotation_witness :
    ∃ u, modelOk.resetPassword (sampleRequest.body.get "token") sampleRequest.body = .ok u ∧
      "b82ef923-d849-4b98-9dee-0a6e0005903d" = u.account_id ∧
      (UserController.resetPassword modelOk socketOk sampleRequest).1 =
        [Effect.modelResetPassword (sampleRequest.body.get "token") sampleRequest.body,
         Effect.askInstanceToClearKeyCache u.account_id] :=
  resetPassword_broadcast_after_rotation modelOk socketOk sampleRequest
    "b82ef923-d849-4b98-9dee-0a6e0005903d"
    (List.Mem.tail _ (List.Mem.head _))

/-- Character lists whose characters encodeURI leaves unescaped render to
themselves. -/
theorem encodeURIList_of_unescaped (l : List Char)
    (h : ∀ c ∈ l, isUriUnescapedChar c = true) :
    encodeURIList l = String.mk l := by
  induction l with
  | nil => rfl
  | cons c cs ih =>
    have hc := h c (List.mem_cons_self c cs)
    simp only [encodeURIList, encodeURIChar, hc, if_true]
    rw [ih (fun x hx => h x (List.mem_cons_of_mem c hx))]
    rfl

/-- Strings whose characters encodeURI leaves unescaped are fixed points of
encodeURI. -/
theorem encodeURI_of_unescaped (s : String)
    (h : ∀ c ∈ s.data, isUriUnescapedChar c = true) :
    encodeURI s = s :=
  encodeURIList_of_unescaped s.data h

/-- C4: every successful signup responds 201 with the fixed status-message
body, whatever user the model created: the email_confirmation_token never
appears in the HTTP response, and the only effect carrying it is the call to
the mail collaborator. -/
theorem signup_response_constant (env : Env) (m : UserModel) (mail : MailService)
    (req : Request) (u : User) (h : m.signup req.body = .ok u) :
    (UserController.signup env m mail req).2 = .ok ⟨201, signupSuccessBody⟩ ∧
    (UserController.signup env m mail req).1 =
      [Effect.modelSignup req.body,
       Effect.mailSend u "confirmation" (UserController.signupConfirmationVariables env u)] := by
  simp [UserController.signup, h]

/-- Witness for C4 at a concrete model and request. -/
theorem signup_response_constant_witness :
    (UserController.signup sampleEnv modelOk mailOk sampleRequest).2 =
      .ok ⟨201, signupSuccessBody⟩ ∧
    (UserController.signup sampleEnv modelOk mailOk sampleRequest).1 =
      [Effect.modelSignup sampleRequest.body,
       Effect.mailSend sampleUser "confirmation"
         (UserController.signupConfirmationVariables sampleEnv sampleUser)] :=
  signup_response_constant sampleEnv modelOk mailOk sampleRequest sampleUser rfl

/-- C5: every successful signup emits exactly one confirmation event to the
mail collaborator, fire-and-forget (the handler's trace and outcome are the
same whatever the mail promise does), and the event's two URL variants each
embed the created user's email_confirmation_token through encodeURI, which
is the identity on tokens made of unescaped characters. -/
theorem signup_mail_fire_and_forget (env : Env) (m : UserModel)
    (mail mail' : MailService) (req : Request) (u : User)
    (h : m.signup req.body = .ok u) :
    ((UserController.signup env m mail req).1.filter Effect.isMailSend =
      [Effect.mailSend u "confirmation" (UserController.signupConfirmationVariables env u)]) ∧
    UserController.signup env m mail req = UserController.signup env m mail' req ∧
    UserController.signupConfirmationVariables env u =
      [("confirmationUrl",
        env.GLADYS_GATEWAY_FRONTEND_URL ++ "/confirm-email/" ++
          encodeURI u.email_confirmation_token),
       ("confirmationUrlGladys4",
        env.GLADYS_PLUS_FRONTEND_URL ++ "/confirm-email/" ++
          encodeURI u.email_confirmation_token)] ∧
    ((∀ c ∈ u.email_confirmation_token.data, isUriUnescapedChar c = true) →
      encodeURI u.email_confirmation_token = u.email_confirmation_token) := by
  refine ⟨?_, rfl, rfl, encodeURI_of_unescaped _⟩
  simp [UserController.signup, h, Effect.isMailSend]

/-- Witness for C5 at a concrete model, request and two mail outcomes. -/
theorem signup_mail_fire_and_forget_witness :
    ((UserController.signup sampleEnv modelOk mailOk sampleRequest).1.filter Effect.isMailSend =
      [Effect.mailSend sampleUser "confirmation"
        (UserController.signupConfirmationVariables sampleEnv sampleUser)]) ∧
    UserController.signup sampleEnv modelOk mailOk sampleRequest =
      UserController.signup sampleEnv modelOk mailFail sampleRequest ∧
    UserController.signupConfirmationVariables sampleEnv sampleUser =
      [("confirmationUrl",
        sampleEnv.GLADYS_GATEWAY_FRONTEND_URL ++ "/confirm-email/" ++
          encodeURI sampleUser.email_confirmation_token),
       ("confirmationUrlGladys4",
        sampleEnv.GLADYS_PLUS_FRONTEND_URL ++ "/confirm-email/" ++
          encodeURI sampleUser.email_confirmation_token)] ∧
    ((∀ c ∈ sampleUser.email_confirmation_token.data, isUriUnescapedChar c = true) →
      encodeURI sampleUser.email_confirmation_token = sampleUser.email_confirmation_token) :=
  signup_mail_fire_and_forget sampleEnv modelOk mailOk mailFail sampleRequest sampleUser rfl

/-- C7: the loginTwoFactor handler calls the model exactly once, with the
authenticated user, the body's two_factor_code and device_name, and the
request's user-agent header; on success it responds with the model's token
triple (access_token, refresh_token, device_id). -/
theorem loginTwoFactor_exact_args (m : UserModel) (req : Request) (t : Tokens)
    (h : m.loginTwoFactor req.user (req.body.get "two_factor_code")
        (req.body.get "device_name") req.userAgent = .ok t) :
    (UserController.loginTwoFactor m req).1 =
      [Effect.modelLoginTwoFactor req.user (req.body.get "two_factor_code")
        (req.body.get "device_name") req.userAgent] ∧
    (UserController.loginTwoFactor m req).2 = .ok ⟨200, tokensToJson t⟩ := by
  simp [UserController.loginTwoFactor, h]

/-- Witness for C7 at a concrete model and request. -/
theorem loginTwoFactor_exact_args_witness :
    (UserController.loginTwoFactor modelOk sampleRequest).1 =
      [Effect.modelLoginTwoFactor sampleRequest.user (sampleRequest.body.get "two_factor_code")
        (sampleRequest.body.get "device_name") sampleRequest.userAgent] ∧
    (UserController.loginTwoFactor modelOk sampleRequest).2 =
      .ok ⟨200, tokensToJson sampleTokens⟩ :=
  loginTwoFactor_exact_args modelOk sampleRequest sampleTokens rfl

/-- C8: a successful updateUser emits the confirmation mail exactly when the
updated user's email_confirmed is false, the mail's two URL variants embed
that user's email_confirmation_token, the mail promise is never awaited, and
in both cases the response is the updated user the model returned. -/
theorem updateUser_mail_iff_unconfirmed (env : Env) (m : UserModel)
    (mail mail' : MailService) (req : Request) (u : User)
    (h : m.updateUser req.user req.body = .ok u) :
    ((UserController.updateUser env m mail req).1.filter Effect.isMailSend =
      (if u.email_confirmed = false
       then [Effect.mailSend u "confirmation" (UserController.updateConfirmationVariables env u)]
       else [])) ∧
    (UserController.updateUser env m mail req).2 = .ok ⟨200, userToJson u⟩ ∧
    UserController.updateUser env m mail req = UserController.updateUser env m mail' req ∧
    UserController.updateConfirmationVariables env u =
      [("confirmationUrl",
        env.GLADYS_GATEWAY_FRONTEND_URL ++ "/confirm-email/" ++ u.email_confirmation_token),
       ("confirmationUrlGladys4",
        env.GLADYS_PLUS_FRONTEND_URL ++ "/confirm-email/" ++ u.email_confirmation_token)] := by
  refine ⟨?_, ?_, rfl, rfl⟩ <;>
    cases hc : u.email_confirmed <;>
      simp [UserController.updateUser, h, hc, Effect.isMailSend]

/-- Witness for C8 at a concrete model whose updated user has
email_confirmed false. -/
theorem updateUser_mail_iff_unconfirmed_witness :
    ((UserController.updateUser sampleEnv modelOk mailOk sampleRequest).1.filter
        Effect.isMailSend =
      (if sampleUser.email_confirmed = false
       then [Effect.mailSend sampleUser "confirmation"
         (UserController.updateConfirmationVariables sampleEnv sampleUser)]
       else [])) ∧
    (UserController.updateUser sampleEnv modelOk mailOk sampleRequest).2 =
      .ok ⟨200, userToJson sampleUser⟩ ∧
    UserController.updateUser sampleEnv modelOk mailOk sampleRequest =
      UserController.updateUser sampleEnv modelOk mailFail sampleRequest ∧
    UserController.updateConfirmationVariables sampleEnv sampleUser =
      [("confirmationUrl",
        sampleEnv.GLADYS_GATEWAY_FRONTEND_URL ++ "/confirm-email/" ++
          sampleUser.email_confirmation_token),
       ("confirmationUrlGladys4",
        sampleEnv.GLADYS_PLUS_FRONTEND_URL ++ "/confirm-email/" ++
          sampleUser.email_confirmation_token)] :=
  updateUser_mail_iff_unconfirmed sampleEnv modelOk mailOk mailFail sampleRequest sampleUser rfl

/-- C6: evaluated at the failing input (no user matches the email), the
loginGetSalt pipeline rejects instead of producing a salt-shaped body, while
with a matching user it resolves with a srp_salt object: the two responses
differ in shape, revealing account existence. -/
theorem loginGetSalt_reveals_account_existence :
    (UserController.loginGetSalt { modelOk with loginGetSalt := loginGetSalt_model [] }
      sampleRequest).2 = .error "NotFound" ∧
    (UserController.loginGetSalt { modelOk with loginGetSalt := loginGetSalt_model [sampleUser] }
      sampleRequest).2 = .ok ⟨200, .obj [("srp_salt", .str sampleUser.srp_salt)]⟩ := by
  constructor <;> rfl

/-- C10: testBrowserCompatibility returns true exactly when window.crypto is
present with a present subtle property and window.indexedDB is present, and
returns false whenever window.crypto.subtle or window.indexedDB is absent. -/
theorem testBrowserCompatibility_spec (w : Auth.Window) :
    (Auth.testBrowserCompatibility w = true ↔
      ((∃ c, w.crypto = some c ∧ c.subtle.isSome = true) ∧ w.indexedDB.isSome = true)) ∧
    (Auth.cryptoSubtle w = none → Auth.testBrowserCompatibility w = false) ∧
    (w.indexedDB = none → Auth.testBrowserCompatibility w = false) := by
  rcases w with ⟨(_ | ⟨(_ | ⟨⟩)⟩), (_ | ⟨⟩)⟩ <;>
    simp [Auth.testBrowserCompatibility, Auth.cryptoSubtle]

end GladysGateway
